import Mathlib

/-!
Shallow embedding of the BrandBlast 2.0 campaign copilot (src/index.tsx).

The app is a single stateful component.  Its mutable fields become the
`AppState` record; each async handler becomes a pair of pure functions:
a `Start` phase (the synchronous prefix up to the await of the service
call, returning either `noDispatch` — the handler returned without
issuing a request — or `dispatched` with the in-flight state) and a
`Resume` phase (the continuation applied to the service outcome).  The
external generative service is an oracle argument: every theorem
quantifies over its possible responses.
-/

namespace BrandBlast

/-- `interface MarketingAngle { title: string; description: string }`. -/
structure MarketingAngle where
  title : String
  description : String
  deriving DecidableEq, Repr

/-- The `text` field of a campaign asset: `string | string[]`. -/
inductive AssetText where
  | single (s : String)
  | strings (l : List String)
  deriving DecidableEq, Repr

/-- `interface CampaignAsset { title: string; image: string; text: string | string[] }`. -/
structure CampaignAsset where
  title : String
  image : String
  text : AssetText
  deriving DecidableEq, Repr

/-- One content part of a multimodal service response; the code only
inspects `part.inlineData` (and takes `.data` from it), so the inline
image payload is a single string here. -/
structure Part where
  inlineData : Option String
  text : Option String
  deriving DecidableEq, Repr

/-- The component state: one field per `useState` hook of `App`.
`null` becomes `none`; `currentStep` starts at 1. -/
structure AppState where
  productPhoto : Option String
  productName : String
  targetAudience : String
  desiredVibe : String
  marketingAngles : List MarketingAngle
  selectedAngle : Option MarketingAngle
  campaignAssets : List CampaignAsset
  bannerVariationPrompt : String
  editedBanner : Option String
  isLoading : Bool
  loadingMessage : String
  currentStep : Nat
  error : Option String
  deriving DecidableEq, Repr

/-- The initial values of the `useState` hooks. -/
def initialState : AppState where
  productPhoto := none
  productName := ""
  targetAudience := ""
  desiredVibe := ""
  marketingAngles := []
  selectedAngle := none
  campaignAssets := []
  bannerVariationPrompt := ""
  editedBanner := none
  isLoading := false
  loadingMessage := ""
  currentStep := 1
  error := none

/-- Failure modes of the embedded `GenerationClient` operations. -/
inductive GenError where
  | photoRequired
  | serviceError
  | noImageReturned
  deriving DecidableEq, Repr

/-- Is `pat` a prefix of the character sequence? -/
def startsWithSeq : List Char → List Char → Bool
  | [], _ => true
  | _ :: _, [] => false
  | p :: ps, c :: cs => p == c && startsWithSeq ps cs

/-- Does the character sequence contain `pat` as a contiguous run? -/
def containsSeq (pat : List Char) : List Char → Bool
  | [] => startsWithSeq pat []
  | c :: cs => startsWithSeq pat (c :: cs) || containsSeq pat cs

/-- JS `t.includes(pat)`: substring containment on strings. -/
def strIncludes (t pat : String) : Bool :=
  containsSeq pat.toList t.toList

/-- The scan `for (const part of response...parts) if (part.inlineData) ... break`:
the inline image data of the first part that carries any. -/
def firstInlineImage : List Part → Option String
  | [] => none
  | p :: ps =>
    match p.inlineData with
    | some d => some d
    | none => firstInlineImage ps

/-- `data:image/png;base64,` ++ payload, as built on both image paths. -/
def dataUrlOfBase64 (d : String) : String :=
  "data:image/png;base64," ++ d

/-- The inner `generateImage` helper of `generateCampaignAssets`:
throws if the photo is gone, propagates a service failure, otherwise
scans the response parts for the first inline image and throws
`NoImageReturned` when there is none.  The oracle `resp` stands for the
outcome of `ai.models.generateContent` (error = transport/service
failure, ok = the part list of candidate 0). -/
def generateImage (productPhoto : Option String) (resp : Except Unit (List Part)) :
    Except GenError String :=
  match productPhoto with
  | none => Except.error GenError.photoRequired
  | some _ =>
    match resp with
    | Except.error _ => Except.error GenError.serviceError
    | Except.ok parts =>
      match firstInlineImage parts with
      | some d => Except.ok (dataUrlOfBase64 d)
      | none => Except.error GenError.noImageReturned

/-- The inner `generateText` helper without a JSON schema: returns the
response text; the oracle already carries it. -/
def generateText (resp : Except Unit String) : Except GenError String :=
  match resp with
  | Except.error _ => Except.error GenError.serviceError
  | Except.ok t => Except.ok t

/-- The inner `generateText` helper with `expectJson = true`: the parsed
array-of-strings result; a service or parse failure is the error case. -/
def generateTextStrings (resp : Except Unit (List String)) : Except GenError (List String) :=
  match resp with
  | Except.error _ => Except.error GenError.serviceError
  | Except.ok l => Except.ok l

/-- Result of the synchronous prefix of an async handler: either the
handler returned without issuing the service request, or the request
went out from the given in-flight state. -/
inductive StartResult where
  | noDispatch (s : AppState)
  | dispatched (s : AppState)
  deriving DecidableEq, Repr

/-- `getMarketingAngles` up to the `await`: the guard
`if (!productName || !targetAudience || !desiredVibe) return;` and the
seven setter calls that precede the service request. -/
def getMarketingAnglesStart (s : AppState) : StartResult :=
  if s.productName = "" ∨ s.targetAudience = "" ∨ s.desiredVibe = "" then
    StartResult.noDispatch s
  else
    StartResult.dispatched { s with
      isLoading := true
      loadingMessage := "Brainstorming strategic angles..."
      error := none
      marketingAngles := []
      selectedAngle := none
      campaignAssets := []
      editedBanner := none }

/-- `getMarketingAngles` after the `await`: on success store the parsed
batch and advance to step 2; on any thrown error set the message; the
`finally` clears `isLoading` on both paths. -/
def getMarketingAnglesResume (s : AppState) (r : Except Unit (List MarketingAngle)) : AppState :=
  match r with
  | Except.ok angles => { s with marketingAngles := angles, currentStep := 2, isLoading := false }
  | Except.error _ =>
      { s with error := some "Failed to suggest angles. Please try again.", isLoading := false }

/-- The whole `getMarketingAngles` handler for a given service outcome. -/
def getMarketingAngles (s : AppState) (r : Except Unit (List MarketingAngle)) : AppState :=
  match getMarketingAnglesStart s with
  | StartResult.noDispatch t => t
  | StartResult.dispatched t => getMarketingAnglesResume t r

/-- The six independent service outcomes consumed by the `Promise.all`
fan-out of `generateCampaignAssets`, one per sub-call. -/
structure CampaignOracle where
  instagramImageResp : Except Unit (List Part)
  instagramTextResp : Except Unit String
  facebookImageResp : Except Unit (List Part)
  facebookTextResp : Except Unit String
  bannerImageResp : Except Unit (List Part)
  bannerTextResp : Except Unit (List String)

/-- The six destructured results of a fully successful `Promise.all`. -/
structure CampaignResults where
  instagramImage : String
  instagramText : String
  facebookImage : String
  facebookText : String
  bannerImage : String
  bannerText : List String
  deriving DecidableEq, Repr

/-- The `Promise.all` join: succeeds with all six results exactly when
every sub-call succeeds, fails when any sub-call fails (which error
surfaces is irrelevant — the handler maps every rejection to one
message). -/
def campaignJoin (productPhoto : Option String) (o : CampaignOracle) :
    Except GenError CampaignResults := do
  let instagramImage ← generateImage productPhoto o.instagramImageResp
  let instagramText ← generateText o.instagramTextResp
  let facebookImage ← generateImage productPhoto o.facebookImageResp
  let facebookText ← generateText o.facebookTextResp
  let bannerImage ← generateImage productPhoto o.bannerImageResp
  let bannerText ← generateTextStrings o.bannerTextResp
  pure { instagramImage, instagramText, facebookImage, facebookText, bannerImage, bannerText }

/-- The literal three-element array passed to `setCampaignAssets` on
success, in source order. -/
def campaignAssetsOf (res : CampaignResults) : List CampaignAsset :=
  [ { title := "Instagram Lifestyle Post", image := res.instagramImage,
      text := AssetText.single res.instagramText },
    { title := "Facebook Ad (Focus on People)", image := res.facebookImage,
      text := AssetText.single res.facebookText },
    { title := "Web Banner (Graphic & Direct)", image := res.bannerImage,
      text := AssetText.strings res.bannerText } ]

/-- `generateCampaignAssets` up to the `Promise.all` await: the guard
`if (!selectedAngle || !productName || !productPhoto) return;` and the
setters that precede the fan-out (note `setCampaignAssets([])` and
`setEditedBanner(null)` run before the `try`). -/
def generateCampaignAssetsStart (s : AppState) : StartResult :=
  if s.selectedAngle = none ∨ s.productName = "" ∨ s.productPhoto = none then
    StartResult.noDispatch s
  else
    StartResult.dispatched { s with
      isLoading := true
      loadingMessage := "Generating your full campaign assets..."
      error := none
      campaignAssets := []
      editedBanner := none }

/-- `generateCampaignAssets` after the join: on success store the three
assets and advance to step 3; on any rejection set the message; the
`finally` clears `isLoading` on both paths. -/
def generateCampaignAssetsResume (s : AppState) (o : CampaignOracle) : AppState :=
  match campaignJoin s.productPhoto o with
  | Except.ok res =>
      { s with campaignAssets := campaignAssetsOf res, currentStep := 3, isLoading := false }
  | Except.error _ =>
      { s with error := some "Failed to generate the campaign. Please try again.",
               isLoading := false }

/-- The whole `generateCampaignAssets` handler for a given oracle. -/
def generateCampaignAssets (s : AppState) (o : CampaignOracle) : AppState :=
  match generateCampaignAssetsStart s with
  | StartResult.noDispatch t => t
  | StartResult.dispatched t => generateCampaignAssetsResume t o

/-- `campaignAssets.find(a => a.title.includes('Web Banner'))`. -/
def findOriginalBanner (s : AppState) : Option CampaignAsset :=
  s.campaignAssets.find? (fun a => strIncludes a.title "Web Banner")

/-- `generateBannerVariation` up to the await: the empty-prompt guard,
the banner lookup, the photo check (in that order — each failing check
returns before the service request), then the setters preceding the
request (note `setEditedBanner(null)` runs before the `try`). -/
def generateBannerVariationStart (s : AppState) : StartResult :=
  if s.bannerVariationPrompt = "" then
    StartResult.noDispatch s
  else
    match findOriginalBanner s with
    | none =>
        StartResult.noDispatch { s with
          error := some "Original banner not found. Please generate a campaign first." }
    | some _ =>
      if s.productPhoto = none then
        StartResult.noDispatch { s with
          error := some "Original product photo not found. Please ensure it is still loaded in Step 1." }
      else
        StartResult.dispatched { s with
          isLoading := true
          loadingMessage := "Generating variation..."
          error := none
          editedBanner := none }

/-- `generateBannerVariation` after the await: scan the parts for the
first inline image; store it on success, set the no-image message when
none is found, set the generic message when the call threw; the
`finally` clears `isLoading` on every path. -/
def generateBannerVariationResume (s : AppState) (resp : Except Unit (List Part)) : AppState :=
  match resp with
  | Except.error _ =>
      { s with error := some "Failed to generate banner variation. Please try again.",
               isLoading := false }
  | Except.ok parts =>
    match firstInlineImage parts with
    | some d => { s with editedBanner := some (dataUrlOfBase64 d), isLoading := false }
    | none =>
        { s with error := some "The model did not return an edited image. Please try a different prompt.",
                 isLoading := false }

/-- The whole `generateBannerVariation` handler for a given outcome. -/
def generateBannerVariation (s : AppState) (resp : Except Unit (List Part)) : AppState :=
  match generateBannerVariationStart s with
  | StartResult.noDispatch t => t
  | StartResult.dispatched t => generateBannerVariationResume t resp

/-- `const isStep1Complete = !!(productPhoto && productName && targetAudience && desiredVibe)`. -/
def isStep1Complete (s : AppState) : Bool :=
  s.productPhoto.isSome && s.productName != "" && s.targetAudience != "" && s.desiredVibe != ""

/-- The step-1 button: `disabled={!isStep1Complete || (isLoading && currentStep === 1)}`. -/
def anglesButtonEnabled (s : AppState) : Bool :=
  isStep1Complete s && !(s.isLoading && s.currentStep == 1)

/-- The step-2 button: rendered when `currentStep >= 2` and
`marketingAngles.length > 0`, `disabled={!selectedAngle || (isLoading && currentStep === 2)}`. -/
def campaignButtonEnabled (s : AppState) : Bool :=
  decide (2 ≤ s.currentStep) && !s.marketingAngles.isEmpty &&
    (s.selectedAngle.isSome && !(s.isLoading && s.currentStep == 2))

/-- The step-4 button: rendered when `currentStep === 3` and
`campaignAssets.length > 0`, `disabled={!bannerVariationPrompt || isLoading}`. -/
def variationButtonEnabled (s : AppState) : Bool :=
  s.currentStep == 3 && !s.campaignAssets.isEmpty &&
    (s.bannerVariationPrompt != "" && !s.isLoading)

/-- The user-triggerable `requestAngles` operation: clicking the step-1
button runs `getMarketingAngles`; a disabled button does nothing. -/
def requestAnglesAction (s : AppState) (r : Except Unit (List MarketingAngle)) : AppState :=
  if anglesButtonEnabled s then getMarketingAngles s r else s

/-- Synchronous prefix of `requestAnglesAction`: whether a click causes
a service request, and the state when the request goes out. -/
def requestAnglesActionStart (s : AppState) : StartResult :=
  if anglesButtonEnabled s then getMarketingAnglesStart s else StartResult.noDispatch s

/-- Clicking an angle card: cards are rendered only inside the step-2
section (`currentStep >= 2`) and only for members of the current batch. -/
def selectAngle (s : AppState) (a : MarketingAngle) : AppState :=
  if 2 ≤ s.currentStep ∧ a ∈ s.marketingAngles then { s with selectedAngle := some a } else s

/-- The user-triggerable `generateCampaign` operation (step-2 button). -/
def generateCampaignAction (s : AppState) (o : CampaignOracle) : AppState :=
  if campaignButtonEnabled s then generateCampaignAssets s o else s

/-- The user-triggerable `generateVariation` operation (step-4 button). -/
def generateVariationAction (s : AppState) (resp : Except Unit (List Part)) : AppState :=
  if variationButtonEnabled s then generateBannerVariation s resp else s

/-- States reachable through the UI: the initial render, the four input
setters (`handlePhotoChange` always stores a string), the variation
prompt setter, angle-card clicks, and the three generation buttons with
an arbitrary service outcome each. -/
inductive Reachable : AppState → Prop where
  | init : Reachable initialState
  | setPhoto (s : AppState) (v : String) :
      Reachable s → Reachable { s with productPhoto := some v }
  | setName (s : AppState) (v : String) :
      Reachable s → Reachable { s with productName := v }
  | setAudience (s : AppState) (v : String) :
      Reachable s → Reachable { s with targetAudience := v }
  | setVibe (s : AppState) (v : String) :
      Reachable s → Reachable { s with desiredVibe := v }
  | setVariationPrompt (s : AppState) (v : String) :
      Reachable s → Reachable { s with bannerVariationPrompt := v }
  | angleClick (s : AppState) (a : MarketingAngle) :
      Reachable s → Reachable (selectAngle s a)
  | anglesClick (s : AppState) (r : Except Unit (List MarketingAngle)) :
      Reachable s → Reachable (requestAnglesAction s r)
  | campaignClick (s : AppState) (o : CampaignOracle) :
      Reachable s → Reachable (generateCampaignAction s o)
  | variationClick (s : AppState) (resp : Except Unit (List Part)) :
      Reachable s → Reachable (generateVariationAction s resp)

/-- The asset collection is either empty or the literal three-asset
array built from some successful six-result join. -/
def assetsWellFormed (s : AppState) : Prop :=
  s.campaignAssets = [] ∨ ∃ res : CampaignResults, s.campaignAssets = campaignAssetsOf res

/-- A state with all step-1 inputs filled, as left by the four setters. -/
def exReadyState : AppState :=
  { initialState with
      productPhoto := some "data:image/png;base64,AAAA"
      productName := "HydroFresh Soap"
      targetAudience := "eco-conscious young adults"
      desiredVibe := "natural, minimalist" }

/-- A concrete three-angle batch. -/
def exAngles : List MarketingAngle :=
  [ { title := "Angle One", description := "First." },
    { title := "Angle Two", description := "Second." },
    { title := "Angle Three", description := "Third." } ]

/-- A concrete two-angle batch (a well-shaped but short service reply). -/
def exTwoAngles : List MarketingAngle :=
  [ { title := "Angle One", description := "First." },
    { title := "Angle Two", description := "Second." } ]

/-- A response part list whose first part carries inline image data. -/
def exOkParts : List Part := [{ inlineData := some "IMG", text := none }]

/-- An oracle on which all six campaign sub-calls succeed. -/
def exOkOracle : CampaignOracle where
  instagramImageResp := Except.ok exOkParts
  instagramTextResp := Except.ok "An engaging caption."
  facebookImageResp := Except.ok exOkParts
  facebookTextResp := Except.ok "A persuasive copy."
  bannerImageResp := Except.ok exOkParts
  bannerTextResp := Except.ok ["Headline A", "Headline B", "Headline C"]

/-- The same oracle with exactly one of the six sub-calls failing. -/
def exFailOracle : CampaignOracle :=
  { exOkOracle with bannerTextResp := Except.error () }

/-- The six results produced by `exOkOracle`. -/
def exResults : CampaignResults where
  instagramImage := dataUrlOfBase64 "IMG"
  instagramText := "An engaging caption."
  facebookImage := dataUrlOfBase64 "IMG"
  facebookText := "A persuasive copy."
  bannerImage := dataUrlOfBase64 "IMG"
  bannerText := ["Headline A", "Headline B", "Headline C"]

/-- After a successful angles click from the filled state. -/
def exState2 : AppState := requestAnglesAction exReadyState (Except.ok exAngles)

/-- After clicking the first angle card. -/
def exState2sel : AppState :=
  selectAngle exState2 { title := "Angle One", description := "First." }

/-- After a fully successful campaign click: three assets, step 3. -/
def exState3 : AppState := generateCampaignAction exState2sel exOkOracle

/-- After typing a variation instruction. -/
def exState3p : AppState :=
  { exState3 with bannerVariationPrompt := "Change the background to lime green" }

/-- After a successful variation click: an edited banner is stored. -/
def exState4 : AppState := generateVariationAction exState3p (Except.ok exOkParts)

/-- The in-flight state of the campaign generation dispatched from `exState2sel`. -/
def exBusyState : AppState :=
  { exState2sel with
      isLoading := true
      loadingMessage := "Generating your full campaign assets..."
      error := none
      campaignAssets := []
      editedBanner := none }

/-- A state with a variation instruction but neither assets nor photo. -/
def exNoBannerNoPhoto : AppState :=
  { initialState with bannerVariationPrompt := "Change the background to lime green" }

/-- A state with a generated banner asset but a missing product photo. -/
def exNoPhotoBanner : AppState :=
  { exState3p with productPhoto := none }

/-- A response whose first part is text-only and whose second part is
the first one carrying inline image data. -/
def exMixedParts : List Part :=
  [ { inlineData := none, text := some "Here is your image." },
    { inlineData := some "DATA", text := none },
    { inlineData := some "LATER", text := none } ]

/-! Helper lemmas shared by the claim theorems. -/

/-- Inversion of a successful `Except` bind. -/
lemma except_bind_ok {α β γ : Type} (x : Except α β) (f : β → Except α γ) (c : γ)
    (h : x >>= f = Except.ok c) : ∃ b, x = Except.ok b ∧ f b = Except.ok c := by
  cases x with
  | error e => simp [Bind.bind, Except.bind] at h
  | ok b => exact ⟨b, rfl, by simpa [Bind.bind, Except.bind] using h⟩

/-- With the three text inputs present the angles handler dispatches,
with the documented in-flight state. -/
lemma getMarketingAnglesStart_dispatched (s : AppState)
    (hn : s.productName ≠ "") (ha : s.targetAudience ≠ "") (hv : s.desiredVibe ≠ "") :
    getMarketingAnglesStart s = StartResult.dispatched { s with
      isLoading := true
      loadingMessage := "Brainstorming strategic angles..."
      error := none
      marketingAngles := []
      selectedAngle := none
      campaignAssets := []
      editedBanner := none } := by
  unfold getMarketingAnglesStart
  rw [if_neg]
  push_neg
  exact ⟨hn, ha, hv⟩

/-- With a selection, a name and a photo the campaign handler
dispatches, with the documented in-flight state. -/
lemma generateCampaignAssetsStart_dispatched (s : AppState)
    (h1 : s.selectedAngle ≠ none) (h2 : s.productName ≠ "") (h3 : s.productPhoto ≠ none) :
    generateCampaignAssetsStart s = StartResult.dispatched { s with
      isLoading := true
      loadingMessage := "Generating your full campaign assets..."
      error := none
      campaignAssets := []
      editedBanner := none } := by
  unfold generateCampaignAssetsStart
  rw [if_neg]
  push_neg
  exact ⟨h1, h2, h3⟩

/-- With a non-empty instruction, a located banner and a photo the
variation handler dispatches, with the documented in-flight state. -/
lemma generateBannerVariationStart_dispatched (s : AppState)
    (hp : s.bannerVariationPrompt ≠ "") (hb : (findOriginalBanner s).isSome)
    (hph : s.productPhoto ≠ none) :
    generateBannerVariationStart s = StartResult.dispatched { s with
      isLoading := true
      loadingMessage := "Generating variation..."
      error := none
      editedBanner := none } := by
  obtain ⟨a, ha⟩ := Option.isSome_iff_exists.mp hb
  unfold generateBannerVariationStart
  rw [if_neg hp, ha, if_neg hph]

/-- A successful join forces every one of the six sub-calls to have
succeeded with the corresponding component of the result. -/
lemma campaignJoin_ok (photo : Option String) (o : CampaignOracle) (res : CampaignResults)
    (h : campaignJoin photo o = Except.ok res) :
    generateImage photo o.instagramImageResp = Except.ok res.instagramImage
    ∧ generateText o.instagramTextResp = Except.ok res.instagramText
    ∧ generateImage photo o.facebookImageResp = Except.ok res.facebookImage
    ∧ generateText o.facebookTextResp = Except.ok res.facebookText
    ∧ generateImage photo o.bannerImageResp = Except.ok res.bannerImage
    ∧ generateTextStrings o.bannerTextResp = Except.ok res.bannerText := by
  unfold campaignJoin at h
  obtain ⟨a, ha, h⟩ := except_bind_ok _ _ _ h
  obtain ⟨b, hb, h⟩ := except_bind_ok _ _ _ h
  obtain ⟨c, hc, h⟩ := except_bind_ok _ _ _ h
  obtain ⟨d, hd, h⟩ := except_bind_ok _ _ _ h
  obtain ⟨e, he, h⟩ := except_bind_ok _ _ _ h
  obtain ⟨f, hf, h⟩ := except_bind_ok _ _ _ h
  have hres : ({ instagramImage := a, instagramText := b, facebookImage := c, facebookText := d, bannerImage := e, bannerText := f } : CampaignResults) = res := by
    have h2 : (Except.ok { instagramImage := a, instagramText := b, facebookImage := c, facebookText := d, bannerImage := e, bannerText := f } : Except GenError CampaignResults) = Except.ok res := h
    injection h2
  subst hres
  exact ⟨ha, hb, hc, hd, he, hf⟩

/-- The first-image scan equals the head of the inline payloads. -/
lemma firstInlineImage_eq (parts : List Part) :
    firstInlineImage parts = (parts.filterMap Part.inlineData).head? := by
  induction parts with
  | nil => rfl
  | cons p ps ih =>
    cases h : p.inlineData with
    | none => simp [firstInlineImage, List.filterMap_cons, h, ih]
    | some d => simp [firstInlineImage, List.filterMap_cons, h]

/-- The Instagram title does not contain the banner marker. -/
lemma strIncludes_instagram : strIncludes "Instagram Lifestyle Post" "Web Banner" = false := by
  decide

/-- The Facebook title does not contain the banner marker. -/
lemma strIncludes_facebook :
    strIncludes "Facebook Ad (Focus on People)" "Web Banner" = false := by
  decide

/-- The banner title contains the banner marker. -/
lemma strIncludes_banner :
    strIncludes "Web Banner (Graphic & Direct)" "Web Banner" = true := by
  decide

/-- Selecting an angle never touches the asset collection. -/
lemma selectAngle_assets (s : AppState) (a : MarketingAngle) :
    (selectAngle s a).campaignAssets = s.campaignAssets := by
  unfold selectAngle
  split <;> rfl

/-- The angles continuation never touches the asset collection. -/
lemma getMarketingAnglesResume_assets (t : AppState) (r : Except Unit (List MarketingAngle)) :
    (getMarketingAnglesResume t r).campaignAssets = t.campaignAssets := by
  unfold getMarketingAnglesResume
  cases r with
  | ok angles => rfl
  | error e => rfl

/-- The angles handler leaves the collection as it was (guard failed)
or clears it. -/
lemma getMarketingAngles_assets (s : AppState) (r : Except Unit (List MarketingAngle)) :
    (getMarketingAngles s r).campaignAssets = s.campaignAssets
    ∨ (getMarketingAngles s r).campaignAssets = [] := by
  unfold getMarketingAngles
  by_cases hc : s.productName = "" ∨ s.targetAudience = "" ∨ s.desiredVibe = ""
  · rw [show getMarketingAnglesStart s = StartResult.noDispatch s from by
      unfold getMarketingAnglesStart; rw [if_pos hc]]
    exact Or.inl rfl
  · push_neg at hc
    rw [getMarketingAnglesStart_dispatched s hc.1 hc.2.1 hc.2.2]
    exact Or.inr (getMarketingAnglesResume_assets _ r)

/-- The campaign continuation clears the collection or stores a
well-formed triple. -/
lemma generateCampaignAssetsResume_assets (t : AppState) (o : CampaignOracle) :
    (generateCampaignAssetsResume t o).campaignAssets = t.campaignAssets
    ∨ ∃ res : CampaignResults,
        (generateCampaignAssetsResume t o).campaignAssets = campaignAssetsOf res := by
  unfold generateCampaignAssetsResume
  cases hj : campaignJoin t.productPhoto o with
  | error e => exact Or.inl rfl
  | ok res => exact Or.inr ⟨res, rfl⟩

/-- The campaign handler leaves the collection as it was (guard
failed), clears it (join failed), or stores a well-formed triple. -/
lemma generateCampaignAssets_assets (s : AppState) (o : CampaignOracle) :
    (generateCampaignAssets s o).campaignAssets = s.campaignAssets
    ∨ (generateCampaignAssets s o).campaignAssets = []
    ∨ ∃ res : CampaignResults, (generateCampaignAssets s o).campaignAssets = campaignAssetsOf res := by
  unfold generateCampaignAssets
  by_cases hc : s.selectedAngle = none ∨ s.productName = "" ∨ s.productPhoto = none
  · rw [show generateCampaignAssetsStart s = StartResult.noDispatch s from by
      unfold generateCampaignAssetsStart; rw [if_pos hc]]
    exact Or.inl rfl
  · push_neg at hc
    rw [generateCampaignAssetsStart_dispatched s hc.1 hc.2.1 hc.2.2]
    rcases generateCampaignAssetsResume_assets { s with
        isLoading := true
        loadingMessage := "Generating your full campaign assets..."
        error := none
        campaignAssets := []
        editedBanner := none } o with h1 | ⟨res, h1⟩
    · exact Or.inr (Or.inl h1)
    · exact Or.inr (Or.inr ⟨res, h1⟩)

/-- The variation continuation never touches the asset collection. -/
lemma generateBannerVariationResume_assets (t : AppState) (resp : Except Unit (List Part)) :
    (generateBannerVariationResume t resp).campaignAssets = t.campaignAssets := by
  cases resp with
  | error e => rfl
  | ok parts =>
    cases hx : firstInlineImage parts with
    | none => simp [generateBannerVariationResume, hx]
    | some d => simp [generateBannerVariationResume, hx]

/-- The variation handler never touches the asset collection. -/
lemma generateBannerVariation_assets (s : AppState) (resp : Except Unit (List Part)) :
    (generateBannerVariation s resp).campaignAssets = s.campaignAssets := by
  unfold generateBannerVariation
  by_cases hp : s.bannerVariationPrompt = ""
  · rw [show generateBannerVariationStart s = StartResult.noDispatch s from by
      unfold generateBannerVariationStart; rw [if_pos hp]]
  · rcases hfb : findOriginalBanner s with _ | a
    · rw [show generateBannerVariationStart s = StartResult.noDispatch { s with
          error := some "Original banner not found. Please generate a campaign first." } from by
        unfold generateBannerVariationStart; rw [if_neg hp, hfb]]
    · by_cases hph : s.productPhoto = none
      · rw [show generateBannerVariationStart s = StartResult.noDispatch { s with
            error := some "Original product photo not found. Please ensure it is still loaded in Step 1." } from by
          unfold generateBannerVariationStart; rw [if_neg hp, hfb, if_pos hph]]
      · rw [generateBannerVariationStart_dispatched s hp (by rw [hfb]; rfl) hph]
        exact generateBannerVariationResume_assets _ resp

/-- In every reachable state the asset collection is empty or the
literal three-asset array of a successful join. -/
lemma reachable_assetsWellFormed (s : AppState) (h : Reachable s) : assetsWellFormed s := by
  induction h with
  | init => exact Or.inl rfl
  | setPhoto s v _ ih => exact ih
  | setName s v _ ih => exact ih
  | setAudience s v _ ih => exact ih
  | setVibe s v _ ih => exact ih
  | setVariationPrompt s v _ ih => exact ih
  | angleClick s a _ ih =>
    unfold assetsWellFormed at ih ⊢
    rw [selectAngle_assets]
    exact ih
  | anglesClick s r _ ih =>
    unfold assetsWellFormed at ih ⊢
    unfold requestAnglesAction
    split
    · rcases getMarketingAngles_assets s r with h1 | h1
      · rw [h1]; exact ih
      · rw [h1]; exact Or.inl rfl
    · exact ih
  | campaignClick s o _ ih =>
    unfold assetsWellFormed at ih ⊢
    unfold generateCampaignAction
    split
    · rcases generateCampaignAssets_assets s o with h1 | h1 | ⟨res, h1⟩
      · rw [h1]; exact ih
      · rw [h1]; exact Or.inl rfl
      · rw [h1]; exact Or.inr ⟨res, rfl⟩
    · exact ih
  | variationClick s resp _ ih =>
    unfold assetsWellFormed at ih ⊢
    unfold generateVariationAction
    split
    · rw [generateBannerVariation_assets]; exact ih
    · exact ih

/-- The filled step-1 state is reachable through the four setters. -/
lemma reachable_exReadyState : Reachable exReadyState :=
  Reachable.setVibe _ _ (Reachable.setAudience _ _ (Reachable.setName _ _
    (Reachable.setPhoto _ _ Reachable.init)))

/-- The post-campaign state is reachable. -/
lemma reachable_exState3 : Reachable exState3 :=
  Reachable.campaignClick _ _ (Reachable.angleClick _ _
    (Reachable.anglesClick _ _ reachable_exReadyState))

/-- The state holding a successfully edited banner is reachable. -/
lemma reachable_exState4 : Reachable exState4 :=
  Reachable.variationClick _ _ (Reachable.setVariationPrompt _ _ reachable_exState3)

/-- A dispatched angles call is its continuation on the in-flight state. -/
lemma getMarketingAngles_eq_of_dispatch (s t : AppState) (r : Except Unit (List MarketingAngle))
    (hd : getMarketingAnglesStart s = StartResult.dispatched t) :
    getMarketingAngles s r = getMarketingAnglesResume t r := by
  unfold getMarketingAngles
  rw [hd]

/-- A dispatched campaign call is its continuation on the in-flight state. -/
lemma generateCampaignAssets_eq_of_dispatch (s t : AppState) (o : CampaignOracle)
    (hd : generateCampaignAssetsStart s = StartResult.dispatched t) :
    generateCampaignAssets s o = generateCampaignAssetsResume t o := by
  unfold generateCampaignAssets
  rw [hd]

/-- A dispatched variation call is its continuation on the in-flight state. -/
lemma generateBannerVariation_eq_of_dispatch (s t : AppState) (resp : Except Unit (List Part))
    (hd : generateBannerVariationStart s = StartResult.dispatched t) :
    generateBannerVariation s resp = generateBannerVariationResume t resp := by
  unfold generateBannerVariation
  rw [hd]

/-- A variation call that does not dispatch ends in the start state. -/
lemma generateBannerVariation_eq_of_noDispatch (s t : AppState) (resp : Except Unit (List Part))
    (hd : generateBannerVariationStart s = StartResult.noDispatch t) :
    generateBannerVariation s resp = t := by
  unfold generateBannerVariation
  rw [hd]

/-- The campaign continuation on a failed join: the generic message is
reported, `isLoading` is cleared, nothing else changes. -/
lemma generateCampaignAssetsResume_error (t : AppState) (o : CampaignOracle) (e : GenError)
    (hfail : campaignJoin t.productPhoto o = Except.error e) :
    generateCampaignAssetsResume t o =
      { t with error := some "Failed to generate the campaign. Please try again.",
               isLoading := false } := by
  unfold generateCampaignAssetsResume
  rw [hfail]

/-- The campaign continuation on a successful join: the three assets
are stored and the step advances to 3. -/
lemma generateCampaignAssetsResume_ok (t : AppState) (o : CampaignOracle) (res : CampaignResults)
    (hok : campaignJoin t.productPhoto o = Except.ok res) :
    generateCampaignAssetsResume t o =
      { t with campaignAssets := campaignAssetsOf res, currentStep := 3, isLoading := false } := by
  unfold generateCampaignAssetsResume
  rw [hok]

/-- The variation continuation on a thrown call. -/
lemma generateBannerVariationResume_error (t : AppState) :
    generateBannerVariationResume t (Except.error ()) =
      { t with error := some "Failed to generate banner variation. Please try again.",
               isLoading := false } := rfl

/-- The variation continuation on a response without image data. -/
lemma generateBannerVariationResume_noImage (t : AppState) (parts : List Part)
    (hx : firstInlineImage parts = none) :
    generateBannerVariationResume t (Except.ok parts) =
      { t with error := some "The model did not return an edited image. Please try a different prompt.",
               isLoading := false } := by
  have h0 : generateBannerVariationResume t (Except.ok parts) =
      match firstInlineImage parts with
      | some d => { t with editedBanner := some (dataUrlOfBase64 d), isLoading := false }
      | none =>
          { t with error := some "The model did not return an edited image. Please try a different prompt.",
                   isLoading := false } := rfl
  rw [h0, hx]

/-- The variation continuation on a response carrying image data. -/
lemma generateBannerVariationResume_image (t : AppState) (parts : List Part) (d : String)
    (hx : firstInlineImage parts = some d) :
    generateBannerVariationResume t (Except.ok parts) =
      { t with editedBanner := some (dataUrlOfBase64 d), isLoading := false } := by
  have h0 : generateBannerVariationResume t (Except.ok parts) =
      match firstInlineImage parts with
      | some d => { t with editedBanner := some (dataUrlOfBase64 d), isLoading := false }
      | none =>
          { t with error := some "The model did not return an edited image. Please try a different prompt.",
                   isLoading := false } := rfl
  rw [h0, hx]

/-! Claim theorems. -/

/-- Claim C3, counterexample: with all inputs valid and the service
returning a well-shaped batch of only two angles, `requestAngles`
succeeds — it stores 2 entries (not 3), advances to step 2 and reports
no error, so the claimed two-outcome disjunction fails: nothing in the
handler checks the batch size. -/
theorem requestAngles_three_counterexample :
    isStep1Complete exReadyState = true
    ∧ (getMarketingAngles exReadyState (Except.ok exTwoAngles)).marketingAngles.length = 2
    ∧ (getMarketingAngles exReadyState (Except.ok exTwoAngles)).marketingAngles.length ≠ 3
    ∧ (getMarketingAngles exReadyState (Except.ok exTwoAngles)).currentStep = 2
    ∧ (getMarketingAngles exReadyState (Except.ok exTwoAngles)).currentStep ≠ 1
    ∧ (getMarketingAngles exReadyState (Except.ok exTwoAngles)).error = none :=
  ⟨rfl, rfl, by decide, rfl, by decide, rfl⟩

/-- Claim C3 (amended): with the three text inputs present,
`requestAngles` either succeeds — storing exactly the batch the service
returned (so exactly 3 entries with non-empty fields precisely when the
service honours the 3-item request) and advancing the stage to
AnglesReady (step 2) — or fails with the single reported error and
leaves the stage unchanged (AwaitingInputs stays AwaitingInputs). -/
theorem requestAngles_outcomes (s : AppState) (r : Except Unit (List MarketingAngle))
    (hn : s.productName ≠ "") (ha : s.targetAudience ≠ "") (hv : s.desiredVibe ≠ "") :
    (∀ angles, r = Except.ok angles →
        (getMarketingAngles s r).marketingAngles = angles
        ∧ (getMarketingAngles s r).currentStep = 2
        ∧ (getMarketingAngles s r).error = none)
    ∧ (r = Except.error () →
        (getMarketingAngles s r).marketingAngles = []
        ∧ (getMarketingAngles s r).currentStep = s.currentStep
        ∧ (getMarketingAngles s r).error = some "Failed to suggest angles. Please try again.") := by
  unfold getMarketingAngles
  rw [getMarketingAnglesStart_dispatched s hn ha hv]
  constructor
  · intro angles hr
    subst hr
    exact ⟨rfl, rfl, rfl⟩
  · intro hr
    subst hr
    exact ⟨rfl, rfl, rfl⟩

/-- Claim C3, witness: the amended theorem applied to the filled
step-1 state and a successful three-angle response. -/
theorem requestAngles_outcomes_witness :
    exReadyState.productName ≠ "" ∧ exReadyState.targetAudience ≠ "" ∧ exReadyState.desiredVibe ≠ ""
    ∧ ((getMarketingAngles exReadyState (Except.ok exAngles)).marketingAngles = exAngles
        ∧ (getMarketingAngles exReadyState (Except.ok exAngles)).currentStep = 2
        ∧ (getMarketingAngles exReadyState (Except.ok exAngles)).error = none) :=
  ⟨by decide, by decide, by decide,
    (requestAngles_outcomes exReadyState (Except.ok exAngles)
      (by decide) (by decide) (by decide)).1 exAngles rfl⟩

/-- Claim C4: whenever any of the four step-1 inputs is absent, the
`requestAngles` operation performs no service call and makes no state
change — the step-1 button is disabled whenever `isStep1Complete` is
false, so the click is a no-op. -/
theorem requestAngles_requires_all_inputs (s : AppState) (r : Except Unit (List MarketingAngle))
    (h : s.productPhoto = none ∨ s.productName = "" ∨ s.targetAudience = "" ∨ s.desiredVibe = "") :
    requestAnglesActionStart s = StartResult.noDispatch s ∧ requestAnglesAction s r = s := by
  have hb : anglesButtonEnabled s = false := by
    rcases h with h | h | h | h <;>
      simp [anglesButtonEnabled, isStep1Complete, h]
  constructor
  · simp [requestAnglesActionStart, hb]
  · simp [requestAnglesAction, hb]

/-- Claim C4, witness: at the initial state the photo is absent, so a
click neither dispatches nor changes anything. -/
theorem requestAngles_requires_all_inputs_witness :
    (initialState.productPhoto = none ∨ initialState.productName = ""
      ∨ initialState.targetAudience = "" ∨ initialState.desiredVibe = "")
    ∧ (requestAnglesActionStart initialState = StartResult.noDispatch initialState
        ∧ requestAnglesAction initialState (Except.ok exAngles) = initialState) :=
  ⟨Or.inl rfl, requestAngles_requires_all_inputs initialState (Except.ok exAngles) (Or.inl rfl)⟩

/-- Claim C6: for every service response, the image operation returns
the inline data of the first content part that carries any (as a data
URL), and fails with `NoImageReturned` exactly when no part of the
response carries inline image data. -/
theorem generateImage_first_inline_image (photo : String) (parts : List Part) :
    (∀ d, (parts.filterMap Part.inlineData).head? = some d →
        generateImage (some photo) (Except.ok parts) = Except.ok (dataUrlOfBase64 d))
    ∧ (generateImage (some photo) (Except.ok parts) = Except.error GenError.noImageReturned ↔
        ∀ p ∈ parts, p.inlineData = none) := by
  have hred : generateImage (some photo) (Except.ok parts) =
      match (parts.filterMap Part.inlineData).head? with
      | some d => Except.ok (dataUrlOfBase64 d)
      | none => Except.error GenError.noImageReturned := by
    have h0 : generateImage (some photo) (Except.ok parts) =
        match firstInlineImage parts with
        | some d => Except.ok (dataUrlOfBase64 d)
        | none => Except.error GenError.noImageReturned := rfl
    rw [h0, firstInlineImage_eq]
  constructor
  · intro d hd
    rw [hred, hd]
  · rw [hred]
    cases hh : (parts.filterMap Part.inlineData).head? with
    | none =>
      rw [List.head?_eq_none_iff] at hh
      constructor
      · intro _
        exact List.filterMap_eq_nil_iff.mp hh
      · intro _
        rfl
    | some d =>
      constructor
      · intro hcon
        exact absurd hcon (by simp)
      · intro hall
        have hmem : d ∈ parts.filterMap Part.inlineData :=
          List.mem_of_mem_head? (by rw [hh]; rfl)
        obtain ⟨p, hp, hpd⟩ := List.mem_filterMap.mp hmem
        exact absurd hpd (by rw [hall p hp]; simp)

/-- Claim C6, witness: on a response whose first part is text-only, the
second part's image data is returned. -/
theorem generateImage_first_inline_image_witness :
    (exMixedParts.filterMap Part.inlineData).head? = some "DATA"
    ∧ generateImage (some "P") (Except.ok exMixedParts) = Except.ok (dataUrlOfBase64 "DATA") :=
  ⟨rfl, (generateImage_first_inline_image "P" exMixedParts).1 "DATA" rfl⟩

/-- Claim C8: every dispatched `requestAngles` call clears all
downstream state — the selection, the asset collection and the edited
banner — on both the success and the failure path, so no previously
selected angle survives into the new batch's selection state. -/
theorem requestAngles_clears_downstream (s : AppState) (r : Except Unit (List MarketingAngle))
    (hn : s.productName ≠ "") (ha : s.targetAudience ≠ "") (hv : s.desiredVibe ≠ "") :
    (getMarketingAngles s r).selectedAngle = none
    ∧ (getMarketingAngles s r).campaignAssets = []
    ∧ (getMarketingAngles s r).editedBanner = none := by
  unfold getMarketingAngles
  rw [getMarketingAnglesStart_dispatched s hn ha hv]
  cases r with
  | ok angles => exact ⟨rfl, rfl, rfl⟩
  | error e => exact ⟨rfl, rfl, rfl⟩

/-- Claim C8, witness: re-requesting angles from the state that holds a
selection, three assets and an edited banner clears all three. -/
theorem requestAngles_clears_downstream_witness :
    exState4.selectedAngle ≠ none ∧ exState4.campaignAssets ≠ [] ∧ exState4.editedBanner ≠ none
    ∧ ((getMarketingAngles exState4 (Except.ok exAngles)).selectedAngle = none
        ∧ (getMarketingAngles exState4 (Except.ok exAngles)).campaignAssets = []
        ∧ (getMarketingAngles exState4 (Except.ok exAngles)).editedBanner = none) :=
  ⟨by decide, by decide, by decide,
    requestAngles_clears_downstream exState4 (Except.ok exAngles)
      (by decide) (by decide) (by decide)⟩

/-- Claim C1, counterexample: from the reachable state that already
holds a 3-entry collection, a second campaign run in which one of the
six sub-calls fails leaves the collection empty — it is cleared at
dispatch and not restored — so a failing operation does NOT leave the
asset collection unchanged, and the stage is AssetsReady (step 3), not
AngleSelected. -/
theorem generateCampaign_unchanged_counterexample :
    Reachable exState3
    ∧ exState3.campaignAssets.length = 3
    ∧ exState3.currentStep = 3
    ∧ exFailOracle.bannerTextResp = Except.error ()
    ∧ campaignButtonEnabled exState3 = true
    ∧ (generateCampaignAction exState3 exFailOracle).campaignAssets = []
    ∧ (generateCampaignAction exState3 exFailOracle).campaignAssets ≠ exState3.campaignAssets
    ∧ (generateCampaignAction exState3 exFailOracle).error =
        some "Failed to generate the campaign. Please try again." :=
  ⟨reachable_exState3, rfl, rfl, rfl, rfl, rfl, by decide, rfl⟩

/-- Claim C1 (amended): when any of the six sub-calls fails, a
dispatched `generateCampaign` fails as a whole with a single reported
error; no partial asset is retained — the collection ends empty, the
selection, step and angle batch are preserved, and any stale edited
banner is cleared.  The collection is cleared at dispatch, so it ends
empty rather than unchanged; launched from AngleSelected, where the
collection is still empty, it is also unchanged.  Only when all six
sub-calls succeed is the 3-entry collection stored. -/
theorem generateCampaign_failure_allOrNothing (s : AppState) (o : CampaignOracle) (e : GenError)
    (h1 : s.selectedAngle ≠ none) (h2 : s.productName ≠ "") (h3 : s.productPhoto ≠ none)
    (hfail : campaignJoin s.productPhoto o = Except.error e) :
    (generateCampaignAssets s o).campaignAssets = []
    ∧ (generateCampaignAssets s o).selectedAngle = s.selectedAngle
    ∧ (generateCampaignAssets s o).currentStep = s.currentStep
    ∧ (generateCampaignAssets s o).marketingAngles = s.marketingAngles
    ∧ (generateCampaignAssets s o).editedBanner = none
    ∧ (generateCampaignAssets s o).error = some "Failed to generate the campaign. Please try again."
    ∧ (s.campaignAssets = [] → (generateCampaignAssets s o).campaignAssets = s.campaignAssets) := by
  have hd := generateCampaignAssetsStart_dispatched s h1 h2 h3
  rw [generateCampaignAssets_eq_of_dispatch s _ o hd,
    generateCampaignAssetsResume_error { s with
      isLoading := true
      loadingMessage := "Generating your full campaign assets..."
      error := none
      campaignAssets := []
      editedBanner := none } o e hfail]
  exact ⟨rfl, rfl, rfl, rfl, rfl, rfl, fun h => h.symm⟩

/-- Claim C1, witness: the amended theorem applied to the selected
state and the oracle whose banner-text sub-call fails. -/
theorem generateCampaign_failure_allOrNothing_witness :
    exState2sel.selectedAngle ≠ none
    ∧ campaignJoin exState2sel.productPhoto exFailOracle = Except.error GenError.serviceError
    ∧ ((generateCampaignAssets exState2sel exFailOracle).campaignAssets = []
        ∧ (generateCampaignAssets exState2sel exFailOracle).selectedAngle = exState2sel.selectedAngle) := by
  have h := generateCampaign_failure_allOrNothing exState2sel exFailOracle GenError.serviceError
    (by decide) (by decide) (by decide) rfl
  exact ⟨by decide, rfl, h.1, h.2.1⟩

/-- Claim C5: a successful `generateCampaign` stores exactly the three
assets, in the fixed order Instagram, Facebook, Banner, pairing each
role's image result with the same role's text result; the banner entry
text is the list-of-strings result and the other two are plain
strings. -/
theorem generateCampaign_success_pairing (s : AppState) (o : CampaignOracle)
    (res : CampaignResults)
    (h1 : s.selectedAngle ≠ none) (h2 : s.productName ≠ "") (h3 : s.productPhoto ≠ none)
    (hok : campaignJoin s.productPhoto o = Except.ok res) :
    (generateCampaignAssets s o).campaignAssets =
      [ { title := "Instagram Lifestyle Post", image := res.instagramImage,
          text := AssetText.single res.instagramText },
        { title := "Facebook Ad (Focus on People)", image := res.facebookImage,
          text := AssetText.single res.facebookText },
        { title := "Web Banner (Graphic & Direct)", image := res.bannerImage,
          text := AssetText.strings res.bannerText } ]
    ∧ (generateCampaignAssets s o).campaignAssets.length = 3
    ∧ (generateCampaignAssets s o).currentStep = 3
    ∧ generateImage s.productPhoto o.instagramImageResp = Except.ok res.instagramImage
    ∧ generateText o.instagramTextResp = Except.ok res.instagramText
    ∧ generateImage s.productPhoto o.facebookImageResp = Except.ok res.facebookImage
    ∧ generateText o.facebookTextResp = Except.ok res.facebookText
    ∧ generateImage s.productPhoto o.bannerImageResp = Except.ok res.bannerImage
    ∧ generateTextStrings o.bannerTextResp = Except.ok res.bannerText := by
  have hd := generateCampaignAssetsStart_dispatched s h1 h2 h3
  rw [generateCampaignAssets_eq_of_dispatch s _ o hd,
    generateCampaignAssetsResume_ok { s with
      isLoading := true
      loadingMessage := "Generating your full campaign assets..."
      error := none
      campaignAssets := []
      editedBanner := none } o res hok]
  obtain ⟨p1, p2, p3, p4, p5, p6⟩ := campaignJoin_ok s.productPhoto o res hok
  exact ⟨rfl, rfl, rfl, p1, p2, p3, p4, p5, p6⟩

/-- Claim C5, witness: applied to the selected state with the all-ok
oracle, yielding the concrete three assets. -/
theorem generateCampaign_success_pairing_witness :
    exState2sel.selectedAngle ≠ none
    ∧ ((generateCampaignAssets exState2sel exOkOracle).campaignAssets.length = 3
        ∧ (generateCampaignAssets exState2sel exOkOracle).currentStep = 3) := by
  obtain ⟨ha, hb, hc, hrest⟩ := generateCampaign_success_pairing exState2sel exOkOracle exResults
    (by decide) (by decide) (by decide) rfl
  exact ⟨by decide, hb, hc⟩

/-- Claim C2, counterexample: a failing variation run from the
reachable state that already holds an edited banner does NOT leave it
untouched — it is cleared when the operation is dispatched, so after
the failure it is `none`. -/
theorem generateVariation_untouched_counterexample :
    Reachable exState4
    ∧ exState4.editedBanner = some (dataUrlOfBase64 "IMG")
    ∧ variationButtonEnabled exState4 = true
    ∧ (generateVariationAction exState4 (Except.error ())).editedBanner = none
    ∧ (generateVariationAction exState4 (Except.error ())).editedBanner ≠ exState4.editedBanner
    ∧ (generateVariationAction exState4 (Except.error ())).error =
        some "Failed to generate banner variation. Please try again." :=
  ⟨reachable_exState4, rfl, rfl, rfl, by decide, rfl⟩

/-- Claim C2 (amended): for a dispatched `generateVariation` (non-empty
instruction, banner found, photo present), a failure — thrown service
call or a response without image data — reports the corresponding
error and leaves the edited banner cleared (it is reset to `none` at
dispatch, not left untouched); only a successful execution stores the
new image.  The asset collection is never modified. -/
theorem generateVariation_failure_clears (s : AppState) (resp : Except Unit (List Part))
    (hp : s.bannerVariationPrompt ≠ "") (hb : (findOriginalBanner s).isSome)
    (hph : s.productPhoto ≠ none) :
    (resp = Except.error () →
        (generateBannerVariation s resp).editedBanner = none
        ∧ (generateBannerVariation s resp).error =
            some "Failed to generate banner variation. Please try again.")
    ∧ (∀ parts, resp = Except.ok parts → firstInlineImage parts = none →
        (generateBannerVariation s resp).editedBanner = none
        ∧ (generateBannerVariation s resp).error =
            some "The model did not return an edited image. Please try a different prompt.")
    ∧ (∀ parts d, resp = Except.ok parts → firstInlineImage parts = some d →
        (generateBannerVariation s resp).editedBanner = some (dataUrlOfBase64 d)
        ∧ (generateBannerVariation s resp).error = none)
    ∧ (generateBannerVariation s resp).campaignAssets = s.campaignAssets := by
  have hd := generateBannerVariationStart_dispatched s hp hb hph
  rw [generateBannerVariation_eq_of_dispatch s _ resp hd]
  refine ⟨?_, ?_, ?_, generateBannerVariationResume_assets _ resp⟩
  · intro hr
    subst hr
    rw [generateBannerVariationResume_error]
    exact ⟨rfl, rfl⟩
  · intro parts hr hx
    subst hr
    rw [generateBannerVariationResume_noImage _ parts hx]
    exact ⟨rfl, rfl⟩
  · intro parts d hr hx
    subst hr
    rw [generateBannerVariationResume_image _ parts d hx]
    exact ⟨rfl, rfl⟩

/-- Claim C2, witness: the amended theorem applied to the state holding
an edited banner, with a thrown service call. -/
theorem generateVariation_failure_clears_witness :
    exState4.bannerVariationPrompt ≠ ""
    ∧ ((generateBannerVariation exState4 (Except.error ())).editedBanner = none
        ∧ (generateBannerVariation exState4 (Except.error ())).error =
            some "Failed to generate banner variation. Please try again.") :=
  ⟨by decide,
    (generateVariation_failure_clears exState4 (Except.error ())
      (by decide) (by decide) (by decide)).1 rfl⟩

/-- Claim C7, counterexample: with a non-empty instruction, a missing
photo and an empty asset collection, `generateVariation` fails with the
banner-not-found error — the banner lookup runs before the photo check
— not with the photo-missing error. -/
theorem generateVariation_photoMissing_counterexample :
    exNoBannerNoPhoto.bannerVariationPrompt ≠ ""
    ∧ exNoBannerNoPhoto.productPhoto = none
    ∧ generateBannerVariationStart exNoBannerNoPhoto = StartResult.noDispatch
        { exNoBannerNoPhoto with
            error := some "Original banner not found. Please generate a campaign first." }
    ∧ (generateBannerVariation exNoBannerNoPhoto (Except.error ())).error =
        some "Original banner not found. Please generate a campaign first."
    ∧ (generateBannerVariation exNoBannerNoPhoto (Except.error ())).error ≠
        some "Original product photo not found. Please ensure it is still loaded in Step 1." :=
  ⟨by decide, rfl, rfl, rfl, by decide⟩

/-- Claim C7 (amended): with a non-empty instruction, a located Web
Banner asset and a missing product photo, `generateVariation` fails
with the photo-missing error, performs no service call, and changes
nothing but the reported error. -/
theorem generateVariation_photo_missing (s : AppState) (resp : Except Unit (List Part))
    (hp : s.bannerVariationPrompt ≠ "") (hb : (findOriginalBanner s).isSome)
    (hph : s.productPhoto = none) :
    generateBannerVariationStart s = StartResult.noDispatch { s with
      error := some "Original product photo not found. Please ensure it is still loaded in Step 1." }
    ∧ generateBannerVariation s resp = { s with
      error := some "Original product photo not found. Please ensure it is still loaded in Step 1." } := by
  obtain ⟨a, ha⟩ := Option.isSome_iff_exists.mp hb
  have hd : generateBannerVariationStart s = StartResult.noDispatch { s with
      error := some "Original product photo not found. Please ensure it is still loaded in Step 1." } := by
    unfold generateBannerVariationStart
    rw [if_neg hp, ha, if_pos hph]
  exact ⟨hd, generateBannerVariation_eq_of_noDispatch s _ resp hd⟩

/-- Claim C7, witness: the amended theorem applied to the state with a
banner asset but no photo. -/
theorem generateVariation_photo_missing_witness :
    exNoPhotoBanner.productPhoto = none
    ∧ (findOriginalBanner exNoPhotoBanner).isSome = true
    ∧ generateBannerVariation exNoPhotoBanner (Except.error ()) = { exNoPhotoBanner with
        error := some "Original product photo not found. Please ensure it is still loaded in Step 1." } :=
  ⟨rfl, by decide,
    (generateVariation_photo_missing exNoPhotoBanner (Except.error ())
      (by decide) (by decide) rfl).2⟩

/-- Claim C9, counterexample: in the in-flight state of a dispatched
campaign generation the busy flag is set, yet the step-1 trigger is
still enabled (its disable condition also requires `currentStep === 1`),
so not all triggering actions are disabled while a call is
outstanding. -/
theorem busy_not_exclusive_counterexample :
    generateCampaignAssetsStart exState2sel = StartResult.dispatched exBusyState
    ∧ exBusyState.isLoading = true
    ∧ anglesButtonEnabled exBusyState = true :=
  ⟨rfl, rfl, rfl⟩

/-- Claim C9 (amended): each of the three operations sets the busy flag
in the state from which its service call is dispatched and clears it on
every exit path of its continuation, success or failure; the variation
trigger is disabled whenever the flag is set, but the angles and
campaign triggers are disabled only when the flag is set at their own
step (1 resp. 2), so a trigger at another step can still start a second
operation while one is in flight. -/
theorem busyFlag_discipline :
    (∀ s t, getMarketingAnglesStart s = StartResult.dispatched t → t.isLoading = true)
    ∧ (∀ t r, (getMarketingAnglesResume t r).isLoading = false)
    ∧ (∀ s t, generateCampaignAssetsStart s = StartResult.dispatched t → t.isLoading = true)
    ∧ (∀ t o, (generateCampaignAssetsResume t o).isLoading = false)
    ∧ (∀ s t, generateBannerVariationStart s = StartResult.dispatched t → t.isLoading = true)
    ∧ (∀ t resp, (generateBannerVariationResume t resp).isLoading = false)
    ∧ (∀ s, variationButtonEnabled s = true → s.isLoading = false) := by
  refine ⟨?_, ?_, ?_, ?_, ?_, ?_, ?_⟩
  · intro s t h
    unfold getMarketingAnglesStart at h
    split at h
    · exact absurd h (by simp)
    · cases h
      rfl
  · intro t r
    cases r with
    | ok angles => rfl
    | error e => rfl
  · intro s t h
    unfold generateCampaignAssetsStart at h
    split at h
    · exact absurd h (by simp)
    · cases h
      rfl
  · intro t o
    cases hj : campaignJoin t.productPhoto o with
    | error e => rw [generateCampaignAssetsResume_error t o e hj]
    | ok res => rw [generateCampaignAssetsResume_ok t o res hj]
  · intro s t h
    unfold generateBannerVariationStart at h
    split at h
    · exact absurd h (by simp)
    · split at h
      · exact absurd h (by simp)
      · split at h
        · exact absurd h (by simp)
        · cases h
          rfl
  · intro t resp
    cases resp with
    | error e => rw [generateBannerVariationResume_error]
    | ok parts =>
      cases hx : firstInlineImage parts with
      | none => rw [generateBannerVariationResume_noImage t parts hx]
      | some d => rw [generateBannerVariationResume_image t parts d hx]
  · intro s h
    simp [variationButtonEnabled] at h
    exact h.2.2

/-- Claim C9, witness: the amended theorem applied to the dispatched
campaign generation and a failing continuation. -/
theorem busyFlag_discipline_witness :
    exBusyState.isLoading = true
    ∧ (generateCampaignAssetsResume exBusyState exFailOracle).isLoading = false :=
  ⟨busyFlag_discipline.2.2.1 exState2sel exBusyState rfl,
    busyFlag_discipline.2.2.2.1 exBusyState exFailOracle⟩

/-- Claim C10: in every reachable state the asset collection is either
empty — and then the banner lookup fails — or contains exactly one
asset whose title contains the substring Web Banner, namely the third
entry, which the lookup returns. -/
theorem banner_lookup_invariant (s : AppState) (h : Reachable s) :
    (s.campaignAssets = [] → findOriginalBanner s = none)
    ∧ (s.campaignAssets ≠ [] →
        s.campaignAssets.countP (fun a => strIncludes a.title "Web Banner") = 1
        ∧ ∃ a, findOriginalBanner s = some a ∧ s.campaignAssets.drop 2 = [a]) := by
  rcases reachable_assetsWellFormed s h with he | ⟨res, hres⟩
  · constructor
    · intro _
      unfold findOriginalBanner
      rw [he]
      rfl
    · intro hne
      exact absurd he hne
  · constructor
    · intro he
      rw [hres] at he
      exact absurd he (by simp [campaignAssetsOf])
    · intro _
      unfold findOriginalBanner
      rw [hres]
      unfold campaignAssetsOf
      constructor
      · simp [List.countP_cons, List.countP_nil, strIncludes_instagram, strIncludes_facebook,
          strIncludes_banner]
      · refine ⟨{ title := "Web Banner (Graphic & Direct)", image := res.bannerImage, text := AssetText.strings res.bannerText }, ?_, rfl⟩
        simp [List.find?, strIncludes_instagram, strIncludes_facebook, strIncludes_banner]

/-- Claim C10, witness: the invariant applied to the reachable
post-campaign state. -/
theorem banner_lookup_invariant_witness :
    exState3.campaignAssets ≠ []
    ∧ (exState3.campaignAssets.countP (fun a => strIncludes a.title "Web Banner") = 1
        ∧ ∃ a, findOriginalBanner exState3 = some a ∧ exState3.campaignAssets.drop 2 = [a]) :=
  ⟨by decide, (banner_lookup_invariant exState3 reachable_exState3).2 (by decide)⟩

end BrandBlast
